import Mathlib

/-!
# Verification of the cronjob dispatcher (yimnai-dev/cronjob)

Shallow embedding of the three script variants:
- `src/index.js` (broadcast-all variant): `buildQueryParams`, `buildURL`,
  `makeRequest`, the `cron.schedule` callback, startup validation.
- `src/unnamed/part_001` (serving, single-random variant): `authenticateRequest`,
  `getRandomEndpoint`, `getRandomQueryParams`, `buildURL`, `createRequestHeaders`,
  `executeCronJob`, the express routes, startup validation.
- `src/unnamed/part_000` (minimal variant): unguarded `getRandomEndpoint` and
  `getRandomQueryParams`.

Non-determinism (`Math.random()`) is modelled by rational samples in `[0,1)`
passed explicitly (one stream index per call made).  The HTTP transport
(`fetch`) is modelled by an oracle `String → Except String FetchResponse`:
`.error msg` is a thrown transport failure, `.ok r` a received response.
`process.exit(1)` is modelled by the `StartupResult.exited` constructor.
-/

namespace Cronjob

/-- JS truthiness of a string: the empty string is falsy, every other string
is truthy (`if (endpoint)`, `if (queryString)` …). -/
def truthy (s : String) : Bool := s ≠ ""

/-- JS truthiness of a possibly-undefined string: `undefined` and `""` are
falsy. -/
def truthyOpt (o : Option String) : Bool :=
  match o with
  | none => false
  | some s => truthy s

/-- JS `s.startsWith(p)` (character-list model). -/
def strStartsWith (s p : String) : Bool := List.isPrefixOf p.toList s.toList

/-- JS `s.slice(n)` for code points in the ASCII range (character-list
model). -/
def strDrop (s : String) (n : Nat) : String := String.mk (s.toList.drop n)

/-- Characters `encodeURIComponent` leaves unescaped:
`A–Z a–z 0–9 - _ . ! ~ * ' ( )`. -/
def isUnescapedURI (c : Char) : Bool :=
  (('A' ≤ c && c ≤ 'Z') || ('a' ≤ c && c ≤ 'z') || ('0' ≤ c && c ≤ '9')
    || c = '-' || c = '_' || c = '.' || c = '!' || c = '~' || c = '*'
    || c = Char.ofNat 39 || c = '(' || c = ')')

/-- Upper-case hexadecimal digit for `n < 16`. -/
def hexDigit (n : Nat) : Char :=
  if n < 10 then Char.ofNat (48 + n) else Char.ofNat (55 + n)

/-- `%XX` escape of one byte. -/
def percentEncodeByte (b : Nat) : List Char :=
  ['%', hexDigit (b / 16 % 16), hexDigit (b % 16)]

/-- UTF-8 bytes of a code point. -/
def utf8Bytes (n : Nat) : List Nat :=
  if n < 0x80 then [n]
  else if n < 0x800 then [0xC0 + n / 64, 0x80 + n % 64]
  else if n < 0x10000 then [0xE0 + n / 4096, 0x80 + n / 64 % 64, 0x80 + n % 64]
  else [0xF0 + n / 262144, 0x80 + n / 4096 % 64, 0x80 + n / 64 % 64, 0x80 + n % 64]

/-- JS `encodeURIComponent`: unescaped characters are kept, every other
character is replaced by the `%XX` escapes of its UTF-8 bytes. -/
def encodeURIComponent (s : String) : String :=
  String.mk ((s.toList.map (fun c =>
    if isUnescapedURI c then [c]
    else ((utf8Bytes c.toNat).map percentEncodeByte).flatten)).flatten)

/-- One literal query parameter of `src/index.js` (`{key, value}`); a JS
`value` of `undefined`/`null` is `none`. -/
structure QueryParam where
  key : String
  value : Option String
  deriving Repr, DecidableEq

/-- `src/index.js` `buildQueryParams`: keeps the parameters whose key is
truthy and whose value is neither `undefined` nor `null`, percent-encodes
key and value, and joins `key=value` pairs with `&`. -/
def buildQueryParams (arr : List QueryParam) : String :=
  if arr.length = 0 then ""
  else
    let params := arr.foldl (fun acc param =>
      match param.value with
      | some v =>
          if truthy param.key then
            acc ++ [encodeURIComponent param.key ++ "=" ++ encodeURIComponent v]
          else acc
      | none => acc) []
    String.intercalate "&" params

/-- `buildURL` (identical in `src/index.js` and `src/unnamed/part_001`):
starts from the base URL, appends `/endpoint` when the endpoint is truthy,
then `?queryString` when the query string is truthy. -/
def buildURL (baseURL endpoint queryString : String) : String :=
  let url := baseURL
  let url := if truthy endpoint then url ++ "/" ++ endpoint else url
  let url := if truthy queryString then url ++ "?" ++ queryString else url
  url

/-- JS array indexing `arr[i]`: `undefined` (`none`) when `i` is out of
bounds. -/
def jsIndex (arr : List String) (i : Int) : Option String :=
  if 0 ≤ i then arr.get? i.toNat else none

/-- `Math.floor(r * range) + 1`, the sampled value of a randomized query
parameter (`r` models one `Math.random()` output). -/
def sampleValue (r : ℚ) (range : Nat) : Int :=
  Int.floor (r * range) + 1

/-- `Math.floor(r * arr.length)`, the sampled index of the random endpoint
selection. -/
def sampleIndex (r : ℚ) (len : Nat) : Int :=
  Int.floor (r * len)

/-- `src/unnamed/part_001` `getRandomEndpoint`: returns `""` for a missing
or empty array, otherwise `arr[Math.floor(Math.random() * arr.length)]`
(which is `undefined`, i.e. `none`, only if the index were out of bounds). -/
def getRandomEndpoint (r : ℚ) (arr : Option (List String)) : Option String :=
  match arr with
  | none => some ""
  | some a => if a.length = 0 then some "" else jsIndex a (sampleIndex r a.length)

/-- `src/unnamed/part_000` `getRandomEndpoint`: no emptiness guard, plain
`arr[Math.floor(Math.random() * arr.length)]`. -/
def getRandomEndpointV0 (r : ℚ) (arr : List String) : Option String :=
  jsIndex arr (sampleIndex r arr.length)

/-- One randomized query parameter of the serving and minimal variants
(`{key, range}`). -/
structure RangeParam where
  key : String
  range : Nat
  deriving Repr, DecidableEq

/-- Loop body of `src/unnamed/part_001` `getRandomQueryParams`: parameters
whose key and range are truthy get `key=value` with a fresh sample each
(`k` counts the `Math.random()` calls made so far); the others are skipped
and consume no sample. -/
def getRandomQueryParamsAux (rnd : Nat → ℚ) : List RangeParam → Nat → List String
  | [], _ => []
  | param :: rest, k =>
    if truthy param.key && param.range != 0 then
      (encodeURIComponent param.key ++ "=" ++
        encodeURIComponent (toString (sampleValue (rnd k) param.range)))
        :: getRandomQueryParamsAux rnd rest (k + 1)
    else getRandomQueryParamsAux rnd rest k

/-- `src/unnamed/part_001` `getRandomQueryParams`: percent-encoded
`key=value` pairs joined with `&`. -/
def getRandomQueryParams (rnd : Nat → ℚ) (arr : List RangeParam) : String :=
  if arr.length = 0 then ""
  else String.intercalate "&" (getRandomQueryParamsAux rnd arr 0)

/-- `src/unnamed/part_000` `getRandomQueryParams`: for every entry (no
guard, no encoding) appends `key=value&`, leaving a trailing `&`. -/
def getRandomQueryParamsV0Aux (rnd : Nat → ℚ) : List RangeParam → Nat → String
  | [], _ => ""
  | param :: rest, k =>
    param.key ++ "=" ++ toString (sampleValue (rnd k) param.range) ++ "&"
      ++ getRandomQueryParamsV0Aux rnd rest (k + 1)

/-- `src/unnamed/part_000` `getRandomQueryParams` (entry point). -/
def getRandomQueryParamsV0 (rnd : Nat → ℚ) (arr : List RangeParam) : String :=
  getRandomQueryParamsV0Aux rnd arr 0

/-- A received HTTP response as `fetch` exposes it: final URL and status
code (`response.ok` is `200 ≤ status < 300`). -/
structure FetchResponse where
  url : String
  status : Nat
  deriving Repr, DecidableEq

/-- `response.ok`: the status code is in the 2xx range. -/
def responseOk (status : Nat) : Bool := 200 ≤ status && status < 300

/-- The transport oracle modelling `fetch`: `.error msg` is a thrown
transport failure with message `msg`, `.ok r` a received response. -/
abbrev Transport := String → Except String FetchResponse

/-- The result record of `src/unnamed/part_001` `executeCronJob`
(`{success, url, status, error?}`). -/
structure DispatchOutcome where
  success : Bool
  url : String
  status : Nat
  error : Option String
  deriving Repr, DecidableEq

/-- `Bearer `-prefixing of the outbound credential in
`createRequestHeaders` of `src/unnamed/part_001`. -/
def bearerize (t : String) : String :=
  if strStartsWith t "Bearer " then t else "Bearer " ++ t

/-- `src/unnamed/part_001` `createRequestHeaders`: fixed content-type and
user-agent, plus an `Authorization` header when the outbound credential is
truthy. -/
def createRequestHeaders (clientAuthToken : Option String) : List (String × String) :=
  let headers := [("Content-Type", "application/json"), ("User-Agent", "CronJob/1.0.0")]
  if truthyOpt clientAuthToken then
    headers ++ [("Authorization", bearerize (clientAuthToken.getD ""))]
  else headers

/-- `src/index.js` `createRequestHeaders`: fixed headers plus
`X-Cron-Secret` when the secret is truthy. -/
def createRequestHeadersIndex (cronSecret : Option String) : List (String × String) :=
  let headers := [("Content-Type", "application/json"), ("User-Agent", "CronJob/1.0.0")]
  if truthyOpt cronSecret then
    headers ++ [("X-Cron-Secret", cronSecret.getD "")]
  else headers

/-- Validated configuration of the serving variant
(`src/unnamed/part_001`). -/
structure Config where
  cronTimer : String
  baseURL : String
  serverAuthToken : String
  clientAuthToken : Option String
  endpoints : List String
  queryParams : List RangeParam
  deriving Repr, DecidableEq

/-- `src/unnamed/part_001` `executeCronJob`, instrumented with the list of
outbound URLs fetched: picks one random endpoint, samples the query
parameters, builds the URL and issues exactly one fetch; a thrown transport
failure is caught and turned into a failed outcome (`success=false`,
`url=""`, `status=0`, `error=message`); a received response gives
`success = response.ok`.  (`getRandomEndpoint`'s possible `undefined` is
falsy like `""`, so `.getD ""` preserves `buildURL`'s behaviour.) -/
def executeCronJobT (cfg : Config) (rE : ℚ) (rnd : Nat → ℚ) (t : Transport) :
    DispatchOutcome × List String :=
  let endpoint := (getRandomEndpoint rE (some cfg.endpoints)).getD ""
  let queryString := getRandomQueryParams rnd cfg.queryParams
  let url := buildURL cfg.baseURL endpoint queryString
  match t url with
  | .ok resp =>
      ({ success := responseOk resp.status, url := resp.url,
         status := resp.status, error := none }, [url])
  | .error msg =>
      ({ success := false, url := "", status := 0, error := some msg }, [url])

/-- `src/unnamed/part_001` `executeCronJob` (outcome only). -/
def executeCronJob (cfg : Config) (rE : ℚ) (rnd : Nat → ℚ) (t : Transport) :
    DispatchOutcome :=
  (executeCronJobT cfg rE rnd t).1

/-- `src/index.js` `getAllEndpoints`: `[]` for a missing or empty array,
otherwise the array itself. -/
def getAllEndpoints (arr : Option (List String)) : List String :=
  match arr with
  | none => []
  | some a => if a.length = 0 then [] else a

/-- Observable result of one `src/index.js` `makeRequest`: the success log
line (final URL and status) or the caught-error log line (endpoint and
message).  `makeRequest` never rethrows. -/
inductive ReqOutcome where
  | ok (url : String) (status : Nat)
  | err (endpoint : String) (msg : String)
  deriving Repr, DecidableEq

/-- `src/index.js` `makeRequest`: builds the query string and URL, issues
one fetch; every transport failure is caught inside this function and
recorded as an `err` outcome. -/
def makeRequest (qp : List QueryParam) (base : String) (endpoint : String)
    (t : Transport) : ReqOutcome :=
  let queryString := buildQueryParams qp
  let url := buildURL base endpoint queryString
  match t url with
  | .ok resp => .ok resp.url resp.status
  | .error msg => .err endpoint msg

/-- The `cron.schedule` callback of `src/index.js`, instrumented with the
outbound URLs fetched: with no configured endpoints it skips the run
(zero calls, empty batch); otherwise it calls `makeRequest` for every
endpoint and settles all of them (`Promise.allSettled`), producing one
outcome per endpoint. -/
def cronCycleT (endpoints : Option (List String)) (qp : List QueryParam)
    (base : String) (t : Transport) : List ReqOutcome × List String :=
  let endpointsToCall := getAllEndpoints endpoints
  if endpointsToCall.length = 0 then ([], [])
  else
    (endpointsToCall.map (fun e => makeRequest qp base e t),
     endpointsToCall.map (fun e => buildURL base e (buildQueryParams qp)))

/-- The `cron.schedule` callback of `src/index.js` (outcome batch only). -/
def cronCycle (endpoints : Option (List String)) (qp : List QueryParam)
    (base : String) (t : Transport) : List ReqOutcome :=
  (cronCycleT endpoints qp base t).1

/-- Strip the optional `Bearer ` scheme prefix from the supplied
credential (`authHeader.slice(7)` when it starts with `Bearer `). -/
def stripBearer (h : String) : String :=
  if strStartsWith h "Bearer " then strDrop h 7 else h

/-- Result of the `authenticateRequest` middleware: either a JSON error
response is sent (and `next` is never called), or the request proceeds. -/
inductive AuthResult where
  | reject (status : Nat) (error : String)
  | proceed
  deriving Repr, DecidableEq

/-- `src/unnamed/part_001` `authenticateRequest`: a falsy (absent or empty)
`Authorization` header is rejected with 401; a supplied token that, after
stripping an optional `Bearer ` prefix, differs from the configured secret
is rejected with 403; otherwise the request proceeds. -/
def authenticateRequest (secret : String) (authHeader : Option String) : AuthResult :=
  if ¬ truthyOpt authHeader then .reject 401 "Authorization header required"
  else
    let token := stripBearer (authHeader.getD "")
    if token ≠ secret then .reject 403 "Invalid token"
    else .proceed

/-- The body of the `GET /status` response of `src/unnamed/part_001`
(without the timestamp). -/
structure StatusResponse where
  cronTimer : String
  baseURL : String
  endpointsCount : Nat
  queryParamsCount : Nat
  hasClientAuth : Bool
  deriving Repr, DecidableEq

/-- The `GET /status` handler body: a pure summary of the configuration
(`!!clientAuthToken` is its truthiness). -/
def statusHandler (cfg : Config) : StatusResponse :=
  { cronTimer := cfg.cronTimer
    baseURL := cfg.baseURL
    endpointsCount := cfg.endpoints.length
    queryParamsCount := cfg.queryParams.length
    hasClientAuth := truthyOpt cfg.clientAuthToken }

/-- A request to the express app of `src/unnamed/part_001`, carrying the
`Authorization` header where the route is protected. -/
inductive Request where
  | health
  | trigger (authHeader : Option String)
  | status (authHeader : Option String)
  deriving Repr, DecidableEq

/-- A response of the express app (timestamps omitted). -/
inductive HttpResponse where
  | errorBody (status : Nat) (error : String)
  | healthOk
  | triggerOk (result : DispatchOutcome)
  | statusOk (body : StatusResponse)
  deriving Repr, DecidableEq

/-- The whole mutable state of the serving process after startup: the
configuration only (no handler of `src/unnamed/part_001` assigns any
module variable). -/
structure ServerState where
  cfg : Config
  deriving Repr, DecidableEq

/-- Routing of `src/unnamed/part_001`: `/health` is open; `/trigger` and
`/status` run `authenticateRequest` first and the handler only when it
proceeds.  Returns the response, the state after the request, and the list
of outbound dispatch calls made while handling it. -/
def handleRequest (st : ServerState) (req : Request) (rE : ℚ) (rnd : Nat → ℚ)
    (t : Transport) : HttpResponse × ServerState × List String :=
  match req with
  | .health => (.healthOk, st, [])
  | .trigger hdr =>
    match authenticateRequest st.cfg.serverAuthToken hdr with
    | .reject status err => (.errorBody status err, st, [])
    | .proceed =>
      let res := executeCronJobT st.cfg rE rnd t
      (.triggerOk res.1, st, res.2)
  | .status hdr =>
    match authenticateRequest st.cfg.serverAuthToken hdr with
    | .reject status err => (.errorBody status err, st, [])
    | .proceed => (.statusOk (statusHandler st.cfg), st, [])

/-- Raw environment of the serving variant (`src/unnamed/part_001`). -/
structure EnvServer where
  cronTimer : Option String
  baseURL : Option String
  serverAuthToken : Option String
  clientAuthToken : Option String
  endpointsRaw : Option String
  queryParamsRaw : Option String

/-- Raw environment of `src/index.js`. -/
structure EnvIndex where
  cronTimer : Option String
  baseURL : Option String
  cronSecret : Option String
  endpointsRaw : Option String
  queryParamsRaw : Option String

/-- Validated configuration of `src/index.js`. -/
structure ConfigIndex where
  cronTimer : String
  baseURL : String
  cronSecret : Option String
  endpoints : List String
  queryParams : List QueryParam
  deriving Repr, DecidableEq

/-- Outcome of startup: either `process.exit(code)` before any scheduling
or serving, or a validated configuration with which scheduling begins. -/
inductive StartupResult (α : Type) where
  | exited (code : Nat)
  | started (cfg : α)
  deriving Repr, DecidableEq

/-- Startup of `src/index.js`.  `parseE`/`parseQ` model `JSON.parse` on the
two JSON blobs (`.error` is a thrown parse error).  A falsy `CRON_TIMER` or
`BASE_URL` exits with code 1; a truthy raw blob is parsed (exit 1 on parse
error), a falsy one defaults to `[]`; `CRON_SECRET` is passed through
unvalidated. -/
def startupIndex (env : EnvIndex)
    (parseE : String → Except String (List String))
    (parseQ : String → Except String (List QueryParam)) :
    StartupResult ConfigIndex :=
  if ¬ truthyOpt env.cronTimer ∨ ¬ truthyOpt env.baseURL then .exited 1
  else
    match (if truthyOpt env.endpointsRaw
           then parseE (env.endpointsRaw.getD "") else .ok []) with
    | .error _ => .exited 1
    | .ok es =>
      match (if truthyOpt env.queryParamsRaw
             then parseQ (env.queryParamsRaw.getD "") else .ok []) with
      | .error _ => .exited 1
      | .ok qs =>
        .started { cronTimer := env.cronTimer.getD "", baseURL := env.baseURL.getD ""
                   cronSecret := env.cronSecret, endpoints := es, queryParams := qs }

/-- Startup of `src/unnamed/part_001`: like `startupIndex`, but a falsy
`SERVER_AUTH_TOKEN` (the inbound secret) is also fatal. -/
def startupServer (env : EnvServer)
    (parseE : String → Except String (List String))
    (parseQ : String → Except String (List RangeParam)) :
    StartupResult Config :=
  if ¬ truthyOpt env.cronTimer ∨ ¬ truthyOpt env.baseURL
      ∨ ¬ truthyOpt env.serverAuthToken then .exited 1
  else
    match (if truthyOpt env.endpointsRaw
           then parseE (env.endpointsRaw.getD "") else .ok []) with
    | .error _ => .exited 1
    | .ok es =>
      match (if truthyOpt env.queryParamsRaw
             then parseQ (env.queryParamsRaw.getD "") else .ok []) with
      | .error _ => .exited 1
      | .ok qs =>
        .started { cronTimer := env.cronTimer.getD "", baseURL := env.baseURL.getD ""
                   serverAuthToken := env.serverAuthToken.getD ""
                   clientAuthToken := env.clientAuthToken
                   endpoints := es, queryParams := qs }

/-! ## Theorems -/

@[simp] lemma truthyOpt_none : truthyOpt none = false := rfl

@[simp] lemma truthyOpt_some (s : String) : truthyOpt (some s) = truthy s := rfl

/-- C2: buildURL returns the base URL unchanged when endpoint and query
string are both empty (no trailing slash, no question mark); a non-empty
endpoint is joined to the base URL with exactly one separating slash; and
a question mark followed by the query string is appended exactly when the
query string is non-empty. -/
theorem buildURL_characterization (baseURL endpoint queryString : String) :
    buildURL baseURL endpoint queryString =
      baseURL ++ (if endpoint = "" then "" else "/" ++ endpoint)
        ++ (if queryString = "" then "" else "?" ++ queryString) := by
  rcases eq_or_ne endpoint "" with he | he <;>
    rcases eq_or_ne queryString "" with hq | hq <;>
      simp [buildURL, truthy, he, hq, String.append_assoc]

/-- C6: the value of a randomized query parameter with range N at least 1,
computed from a uniform sample r in the half-open unit interval as
floor(r * N) + 1 (the shared definition sampleValue used by both
getRandomQueryParams variants, one fresh sample index per parameter),
lies between 1 and N inclusive. -/
theorem sampleValue_bounds (r : ℚ) (N : Nat) (hN : 1 ≤ N) (h0 : 0 ≤ r) (h1 : r < 1) :
    1 ≤ sampleValue r N ∧ sampleValue r N ≤ N := by
  have hNpos : (0 : ℚ) < N := by exact_mod_cast Nat.lt_of_lt_of_le Nat.zero_lt_one hN
  constructor
  · have : (0 : ℤ) ≤ Int.floor (r * N) := by
      apply Int.floor_nonneg.mpr
      positivity
    unfold sampleValue
    omega
  · have hlt : r * N < N := by
      calc r * N < 1 * N := by exact mul_lt_mul_of_pos_right h1 hNpos
      _ = N := one_mul _
    have : Int.floor (r * N) < (N : ℤ) := by
      apply Int.floor_lt.mpr
      exact_mod_cast hlt
    unfold sampleValue
    omega

/-- C6 witness: with range 10 and sample 9999/10000 the value is exactly
10, inside the inclusive bounds. -/
theorem sampleValue_bounds_witness :
    1 ≤ sampleValue ((9999 : ℚ)/10000) 10 ∧ sampleValue ((9999 : ℚ)/10000) 10 ≤ 10 :=
  sampleValue_bounds ((9999 : ℚ)/10000) 10 (by norm_num) (by norm_num) (by norm_num)

/-- The sampled endpoint index is in bounds for a non-empty array and a
sample in the half-open unit interval. -/
lemma sampleIndex_mem (r : ℚ) (n : Nat) (h0 : 0 ≤ r) (h1 : r < 1) (hn : 1 ≤ n) :
    0 ≤ sampleIndex r n ∧ (sampleIndex r n).toNat < n := by
  have hnpos : (0 : ℚ) < n := by exact_mod_cast Nat.lt_of_lt_of_le Nat.zero_lt_one hn
  have hge : (0 : ℤ) ≤ Int.floor (r * n) := by
    apply Int.floor_nonneg.mpr
    positivity
  have hlt : Int.floor (r * n) < (n : ℤ) := by
    apply Int.floor_lt.mpr
    calc r * n < 1 * n := mul_lt_mul_of_pos_right h1 hnpos
    _ = n := one_mul _
  unfold sampleIndex
  omega

/-- C9 counterexample: the minimal variant's getRandomEndpoint, applied to
an empty array, evaluates arr[floor(r*0)] = arr[0] and yields undefined,
not the empty string. -/
theorem getRandomEndpointV0_empty_counterexample :
    getRandomEndpointV0 ((1 : ℚ)/2) [] = none ∧
      getRandomEndpointV0 ((1 : ℚ)/2) [] ≠ some "" := by
  have h : getRandomEndpointV0 ((1 : ℚ)/2) [] = none := by
    simp [getRandomEndpointV0, jsIndex, sampleIndex]
  refine ⟨h, ?_⟩
  rw [h]
  exact fun hc => Option.noConfusion hc

/-- C9 amended: for a non-empty array and a sample in the half-open unit
interval, the sampled index floor(r * n) is strictly below n, so both
getRandomEndpoint variants return an element of the array; for a missing
or empty array the guarded variant (serving variant) returns the empty
string, while the minimal variant's lookup is out of bounds (undefined). -/
theorem getRandomEndpoint_selection (r : ℚ) (h0 : 0 ≤ r) (h1 : r < 1) :
    (∀ arr : List String, arr ≠ [] →
      ∃ x ∈ arr, getRandomEndpoint r (some arr) = some x ∧
        getRandomEndpointV0 r arr = some x) ∧
    (getRandomEndpoint r none = some "" ∧ getRandomEndpoint r (some []) = some "") := by
  refine ⟨fun arr harr => ?_, by simp [getRandomEndpoint], by simp [getRandomEndpoint]⟩
  have hn : 1 ≤ arr.length := List.length_pos.mpr harr
  obtain ⟨hge, hlt⟩ := sampleIndex_mem r arr.length h0 h1 hn
  refine ⟨arr.get ⟨(sampleIndex r arr.length).toNat, hlt⟩, List.get_mem arr _ hlt, ?_, ?_⟩
  · have hlen : arr.length ≠ 0 := by omega
    simp [getRandomEndpoint, jsIndex, hlen, hge, List.get?_eq_get hlt]
  · simp [getRandomEndpointV0, jsIndex, hge, List.get?_eq_get hlt]

/-- C9 witness: with sample one half and the two-element array the guarded
and unguarded selections agree on an element of the array, and the guarded
variant maps a missing or empty array to the empty string. -/
theorem getRandomEndpoint_selection_witness :
    (∃ x ∈ ["a", "b"], getRandomEndpoint ((1 : ℚ)/2) (some ["a", "b"]) = some x ∧
        getRandomEndpointV0 ((1 : ℚ)/2) ["a", "b"] = some x) ∧
      getRandomEndpoint ((1 : ℚ)/2) none = some "" := by
  have h := getRandomEndpoint_selection ((1 : ℚ)/2) (by norm_num) (by norm_num)
  exact ⟨h.1 ["a", "b"] (by decide), h.2.1⟩

/-- C10: executeCronJob is total (it never lets the transport failure
escape): a thrown transport failure produces the failed outcome with empty
url, status 0 and the failure message; a received response produces an
outcome whose success flag is response.ok, i.e. true exactly when the
status code is in the 2xx range. -/
theorem executeCronJob_outcome_spec (cfg : Config) (rE : ℚ) (rnd : Nat → ℚ)
    (t : Transport) :
    (∀ msg, t (buildURL cfg.baseURL ((getRandomEndpoint rE (some cfg.endpoints)).getD "")
        (getRandomQueryParams rnd cfg.queryParams)) = .error msg →
      executeCronJob cfg rE rnd t =
        { success := false, url := "", status := 0, error := some msg }) ∧
    (∀ resp, t (buildURL cfg.baseURL ((getRandomEndpoint rE (some cfg.endpoints)).getD "")
        (getRandomQueryParams rnd cfg.queryParams)) = .ok resp →
      executeCronJob cfg rE rnd t =
        { success := responseOk resp.status, url := resp.url,
          status := resp.status, error := none } ∧
      ((executeCronJob cfg rE rnd t).success = true ↔
        200 ≤ resp.status ∧ resp.status < 300)) := by
  constructor
  · intro msg hmsg
    simp [executeCronJob, executeCronJobT, hmsg]
  · intro resp hresp
    constructor
    · simp [executeCronJob, executeCronJobT, hresp]
    · simp [executeCronJob, executeCronJobT, hresp, responseOk]

/-- C10 witness: a transport that throws yields the failed outcome, and a
204 response yields a successful outcome. -/
theorem executeCronJob_outcome_spec_witness :
    executeCronJob ⟨"* * * * *", "https://h", "s", none, ["a"], []⟩ 0 (fun _ => 0)
        (fun _ => .error "boom") =
      { success := false, url := "", status := 0, error := some "boom" } ∧
    (executeCronJob ⟨"* * * * *", "https://h", "s", none, ["a"], []⟩ 0 (fun _ => 0)
        (fun u => Except.ok ⟨u, 204⟩)).success = true := by
  constructor
  · exact (executeCronJob_outcome_spec ⟨"* * * * *", "https://h", "s", none, ["a"], []⟩
      0 (fun _ => 0) (fun _ => .error "boom")).1 "boom" rfl
  · have h := (executeCronJob_outcome_spec ⟨"* * * * *", "https://h", "s", none, ["a"], []⟩
      0 (fun _ => 0) (fun u => Except.ok ⟨u, 204⟩)).2
      ⟨buildURL "https://h" ((getRandomEndpoint 0 (some ["a"])).getD "")
        (getRandomQueryParams (fun _ => 0) []), 204⟩ rfl
    exact h.2.mpr (by norm_num)

/-- C3: on the protected paths, a missing (or empty, hence falsy)
Authorization header yields a 401 JSON error with no dispatch call and no
state change; a supplied token that differs from the inbound secret after
stripping an optional Bearer prefix yields a 403 JSON error, again with no
dispatch call; a token equal to the secret lets the request proceed to the
operation (the trigger runs one dispatch cycle, the status query answers
with the configuration summary). -/
theorem auth_gate_spec (st : ServerState) (rE : ℚ) (rnd : Nat → ℚ) (t : Transport)
    (hdr : Option String) :
    (truthyOpt hdr = false →
      handleRequest st (.trigger hdr) rE rnd t =
        (.errorBody 401 "Authorization header required", st, []) ∧
      handleRequest st (.status hdr) rE rnd t =
        (.errorBody 401 "Authorization header required", st, [])) ∧
    (∀ s, hdr = some s → truthy s = true → stripBearer s ≠ st.cfg.serverAuthToken →
      handleRequest st (.trigger hdr) rE rnd t =
        (.errorBody 403 "Invalid token", st, []) ∧
      handleRequest st (.status hdr) rE rnd t =
        (.errorBody 403 "Invalid token", st, [])) ∧
    (∀ s, hdr = some s → truthy s = true → stripBearer s = st.cfg.serverAuthToken →
      handleRequest st (.trigger hdr) rE rnd t =
        (.triggerOk (executeCronJob st.cfg rE rnd t), st, (executeCronJobT st.cfg rE rnd t).2) ∧
      handleRequest st (.status hdr) rE rnd t =
        (.statusOk (statusHandler st.cfg), st, [])) := by
  refine ⟨fun hfalsy => ?_, fun s hs htru hne => ?_, fun s hs htru heq => ?_⟩
  · constructor <;> simp [handleRequest, authenticateRequest, hfalsy]
  · subst hs
    constructor <;>
      simp [handleRequest, authenticateRequest, truthyOpt, htru, hne]
  · subst hs
    constructor <;>
      simp [handleRequest, authenticateRequest, truthyOpt, htru, heq,
        executeCronJob]

/-- C3 witness: with secret "sec", a request with no header is rejected
with 401, a wrong bearer token with 403, and the correct raw token reaches
the status operation. -/
theorem auth_gate_spec_witness :
    handleRequest ⟨⟨"c", "b", "sec", none, [], []⟩⟩ (.trigger none) 0 (fun _ => 0)
        (fun u => .ok ⟨u, 200⟩) =
      (.errorBody 401 "Authorization header required", ⟨⟨"c", "b", "sec", none, [], []⟩⟩, []) ∧
    handleRequest ⟨⟨"c", "b", "sec", none, [], []⟩⟩ (.status (some "Bearer nope")) 0
        (fun _ => 0) (fun u => .ok ⟨u, 200⟩) =
      (.errorBody 403 "Invalid token", ⟨⟨"c", "b", "sec", none, [], []⟩⟩, []) ∧
    handleRequest ⟨⟨"c", "b", "sec", none, [], []⟩⟩ (.status (some "sec")) 0
        (fun _ => 0) (fun u => .ok ⟨u, 200⟩) =
      (.statusOk (statusHandler ⟨"c", "b", "sec", none, [], []⟩),
        ⟨⟨"c", "b", "sec", none, [], []⟩⟩, []) := by
  have h1 := auth_gate_spec ⟨⟨"c", "b", "sec", none, [], []⟩⟩ 0 (fun _ => 0)
    (fun u => .ok ⟨u, 200⟩) none
  have h2 := auth_gate_spec ⟨⟨"c", "b", "sec", none, [], []⟩⟩ 0 (fun _ => 0)
    (fun u => .ok ⟨u, 200⟩) (some "Bearer nope")
  have h3 := auth_gate_spec ⟨⟨"c", "b", "sec", none, [], []⟩⟩ 0 (fun _ => 0)
    (fun u => .ok ⟨u, 200⟩) (some "sec")
  exact ⟨(h1.1 (by decide)).1,
         (h2.2.1 "Bearer nope" rfl (by decide) (by decide)).2,
         (h3.2.2 "sec" rfl (by decide) (by decide)).2⟩

/-- C8: handling a GET status request never changes the server state and
never performs a dispatch call, whatever the credential; with a valid
credential the response body reports exactly the schedule expression, the
base URL, the endpoint-set length, the query-parameter-spec length and the
truthiness of the outbound credential. -/
theorem status_request_spec (st : ServerState) (rE : ℚ) (rnd : Nat → ℚ)
    (t : Transport) (hdr : Option String) :
    ((handleRequest st (.status hdr) rE rnd t).2.1 = st ∧
      (handleRequest st (.status hdr) rE rnd t).2.2 = []) ∧
    (authenticateRequest st.cfg.serverAuthToken hdr = .proceed →
      handleRequest st (.status hdr) rE rnd t =
        (.statusOk ⟨st.cfg.cronTimer, st.cfg.baseURL, st.cfg.endpoints.length,
          st.cfg.queryParams.length, truthyOpt st.cfg.clientAuthToken⟩, st, [])) := by
  constructor
  · cases hauth : authenticateRequest st.cfg.serverAuthToken hdr <;>
      simp [handleRequest, hauth]
  · intro hauth
    simp [handleRequest, hauth, statusHandler]

/-- C8 witness: an authenticated status request on a concrete
configuration returns the exact summary, the unchanged state and no
dispatch calls. -/
theorem status_request_spec_witness :
    handleRequest ⟨⟨"*/5 * * * *", "https://h", "sec", some "tok", ["a", "b"], [⟨"x", 3⟩]⟩⟩
        (.status (some "Bearer sec")) 0 (fun _ => 0) (fun u => .ok ⟨u, 200⟩) =
      (.statusOk ⟨"*/5 * * * *", "https://h", 2, 1, true⟩,
        ⟨⟨"*/5 * * * *", "https://h", "sec", some "tok", ["a", "b"], [⟨"x", 3⟩]⟩⟩, []) := by
  exact (status_request_spec ⟨⟨"*/5 * * * *", "https://h", "sec", some "tok",
    ["a", "b"], [⟨"x", 3⟩]⟩⟩ 0 (fun _ => 0) (fun u => .ok ⟨u, 200⟩)
    (some "Bearer sec")).2 (by decide)

/-- C4: a broadcast cycle settles every endpoint: the outcome batch has
exactly one entry per selected endpoint, the i-th entry is exactly the
outcome of the i-th endpoint's own call (so a failure of any sibling call
cannot prevent it from executing or being recorded), and a transport
failure on one call is caught inside makeRequest and recorded as a failed
outcome rather than thrown. -/
theorem cronCycle_isolation (endpoints : List String) (qp : List QueryParam)
    (base : String) (t : Transport) :
    (cronCycle (some endpoints) qp base t).length =
        (getAllEndpoints (some endpoints)).length ∧
    (∀ i, (cronCycle (some endpoints) qp base t).get? i =
      ((getAllEndpoints (some endpoints)).get? i).map
        (fun e => makeRequest qp base e t)) ∧
    (∀ e msg, t (buildURL base e (buildQueryParams qp)) = .error msg →
      makeRequest qp base e t = .err e msg) := by
  refine ⟨?_, fun i => ?_, fun e msg hmsg => ?_⟩
  · by_cases h : (getAllEndpoints (some endpoints)).length = 0 <;>
      simp [cronCycle, cronCycleT, h]
  · by_cases h : (getAllEndpoints (some endpoints)).length = 0
    · have hnil : getAllEndpoints (some endpoints) = [] := List.length_eq_zero.mp h
      simp [cronCycle, cronCycleT, h, hnil]
    · simp [cronCycle, cronCycleT, h]
  · simp [makeRequest, hmsg]

/-- C4 witness: three endpoints with the middle call failing still yield a
batch of exactly three entries, the middle one recorded as the failed
outcome. -/
theorem cronCycle_isolation_witness :
    (cronCycle (some ["a", "b", "c"]) [] "h"
        (fun u => if u = "h/b" then .error "boom" else .ok ⟨u, 200⟩)).length = 3 ∧
    (cronCycle (some ["a", "b", "c"]) [] "h"
        (fun u => if u = "h/b" then .error "boom" else .ok ⟨u, 200⟩)).get? 1 =
      some (.err "b" "boom") := by
  have h := cronCycle_isolation ["a", "b", "c"] [] "h"
    (fun u => if u = "h/b" then .error "boom" else .ok ⟨u, 200⟩)
  refine ⟨by rw [h.1]; rfl, ?_⟩
  rw [h.2.1 1]
  have he := h.2.2 "b" "boom" (by rfl)
  rw [show (getAllEndpoints (some ["a", "b", "c"])).get? 1 = some "b" from rfl]
  simp [he]

/-- C1 counterexample: the serving variant's dispatch cycle (run by the
scheduler and by the trigger operation) with an empty endpoint set still
performs one outbound call, to the bare base URL, instead of zero calls. -/
theorem trigger_empty_endpoints_counterexample :
    (executeCronJobT ⟨"* * * * *", "https://h", "s", none, [], []⟩ 0 (fun _ => 0)
        (fun u => .ok ⟨u, 200⟩)).2 = ["https://h"] ∧
    ((executeCronJobT ⟨"* * * * *", "https://h", "s", none, [], []⟩ 0 (fun _ => 0)
        (fun u => .ok ⟨u, 200⟩)).2).length ≠ 0 := by
  exact ⟨rfl, by rw [show (executeCronJobT ⟨"* * * * *", "https://h", "s", none, [], []⟩
    0 (fun _ => 0) (fun u => .ok ⟨u, 200⟩)).2 = ["https://h"] from rfl]; simp⟩

/-- C1 amended: with an empty endpoint set, the broadcast-all cycle of the
index variant performs zero outbound calls and reports an empty batch (a
no-op, not an error), while the single-random cycle of the serving variant
performs exactly one outbound call, to the base URL carrying only the
sampled query string (the selection contributes no endpoint), and reports
that call's outcome rather than an error. -/
theorem empty_endpoints_dispatch (qp : List QueryParam) (base : String)
    (t : Transport) (cfg : Config) (rE : ℚ) (rnd : Nat → ℚ) (t' : Transport) :
    cronCycleT (some []) qp base t = ([], []) ∧
    (cfg.endpoints = [] →
      (executeCronJobT cfg rE rnd t').2 =
        [buildURL cfg.baseURL "" (getRandomQueryParams rnd cfg.queryParams)]) := by
  constructor
  · simp [cronCycleT, getAllEndpoints]
  · intro hempty
    have hsel : getRandomEndpoint rE (some cfg.endpoints) = some "" := by
      simp [getRandomEndpoint, hempty]
    cases ht : t' (buildURL cfg.baseURL "" (getRandomQueryParams rnd cfg.queryParams)) <;>
      simp [executeCronJobT, hsel, ht]

/-- C1 amended witness: concrete no-op broadcast cycle and concrete
one-call single-random cycle over an empty endpoint set. -/
theorem empty_endpoints_dispatch_witness :
    cronCycleT (some []) [] "h" (fun u => .ok ⟨u, 200⟩) = ([], []) ∧
    (executeCronJobT ⟨"c", "https://h", "s", none, [], []⟩ 0 (fun _ => 0)
        (fun u => .ok ⟨u, 200⟩)).2 = ["https://h"] := by
  have h := empty_endpoints_dispatch [] "h" (fun u => .ok ⟨u, 200⟩)
    ⟨"c", "https://h", "s", none, [], []⟩ 0 (fun _ => 0) (fun u => .ok ⟨u, 200⟩)
  refine ⟨h.1, ?_⟩
  rw [h.2 rfl]
  rfl

/-- C5 counterexample: with the schedule expression and base URL both
present and every other field absent, the index variant starts, but the
serving variant exits with code 1 because its inbound secret
(SERVER_AUTH_TOKEN) is a required field, not an optional one. -/
theorem startup_missing_secret_counterexample :
    startupServer ⟨some "* * * * *", some "https://h", none, none, none, none⟩
        (fun _ => .ok []) (fun _ => .ok []) = .exited 1 ∧
    startupIndex ⟨some "* * * * *", some "https://h", none, none, none⟩
        (fun _ => .ok []) (fun _ => .ok []) =
      .started ⟨"* * * * *", "https://h", none, [], []⟩ := by
  exact ⟨rfl, rfl⟩

/-- C5 amended: startup validation requires the schedule expression and
the base URL, and in the serving variant also the inbound secret; if any
required field is falsy, or either configured JSON blob fails to parse,
startup exits with code 1 (no configuration is produced, so no scheduling
or serving begins); the endpoint set and query-parameter spec default to
empty sequences when absent, and the outbound credential is optional and
passed through (the inbound secret is optional only in the non-serving
variant, where it is the passed-through outbound secret header value). -/
theorem startup_validation_spec (envI : EnvIndex) (envS : EnvServer)
    (pE : String → Except String (List String))
    (pQ : String → Except String (List QueryParam))
    (pEs : String → Except String (List String))
    (pQs : String → Except String (List RangeParam)) :
    (truthyOpt envI.cronTimer = false ∨ truthyOpt envI.baseURL = false →
      startupIndex envI pE pQ = .exited 1) ∧
    (truthyOpt envS.cronTimer = false ∨ truthyOpt envS.baseURL = false ∨
        truthyOpt envS.serverAuthToken = false →
      startupServer envS pEs pQs = .exited 1) ∧
    (truthyOpt envI.cronTimer = true → truthyOpt envI.baseURL = true →
      envI.endpointsRaw = none → envI.queryParamsRaw = none →
      startupIndex envI pE pQ =
        .started ⟨envI.cronTimer.getD "", envI.baseURL.getD "", envI.cronSecret, [], []⟩) ∧
    (truthyOpt envS.cronTimer = true → truthyOpt envS.baseURL = true →
      truthyOpt envS.serverAuthToken = true →
      envS.endpointsRaw = none → envS.queryParamsRaw = none →
      startupServer envS pEs pQs =
        .started ⟨envS.cronTimer.getD "", envS.baseURL.getD "",
          envS.serverAuthToken.getD "", envS.clientAuthToken, [], []⟩) ∧
    (∀ s m, truthyOpt envI.cronTimer = true → truthyOpt envI.baseURL = true →
      envI.endpointsRaw = some s → truthy s = true → pE s = .error m →
      startupIndex envI pE pQ = .exited 1) ∧
    (∀ s m es, truthyOpt envI.cronTimer = true → truthyOpt envI.baseURL = true →
      envI.queryParamsRaw = some s → truthy s = true →
      (if truthyOpt envI.endpointsRaw then pE (envI.endpointsRaw.getD "")
        else .ok []) = .ok es →
      pQ s = .error m → startupIndex envI pE pQ = .exited 1) ∧
    (∀ s m, truthyOpt envS.cronTimer = true → truthyOpt envS.baseURL = true →
      truthyOpt envS.serverAuthToken = true →
      envS.endpointsRaw = some s → truthy s = true → pEs s = .error m →
      startupServer envS pEs pQs = .exited 1) ∧
    (∀ s m es, truthyOpt envS.cronTimer = true → truthyOpt envS.baseURL = true →
      truthyOpt envS.serverAuthToken = true →
      envS.queryParamsRaw = some s → truthy s = true →
      (if truthyOpt envS.endpointsRaw then pEs (envS.endpointsRaw.getD "")
        else .ok []) = .ok es →
      pQs s = .error m → startupServer envS pEs pQs = .exited 1) := by
  refine ⟨fun h => ?_, fun h => ?_, fun h1 h2 he hq => ?_, fun h1 h2 h3 he hq => ?_,
    fun s m h1 h2 hs htru herr => ?_, fun s m es h1 h2 hs htru hok herr => ?_,
    fun s m h1 h2 h3 hs htru herr => ?_, fun s m es h1 h2 h3 hs htru hok herr => ?_⟩
  · rcases h with h | h <;> simp [startupIndex, h]
  · rcases h with h | h | h <;> simp [startupServer, h]
  · simp [startupIndex, h1, h2, he, hq]
  · simp [startupServer, h1, h2, h3, he, hq]
  · simp [startupIndex, h1, h2, hs, htru, herr]
  · simp [startupIndex, h1, h2, hok, hs, htru, herr]
  · simp [startupServer, h1, h2, h3, hs, htru, herr]
  · simp [startupServer, h1, h2, h3, hok, hs, htru, herr]

/-- C5 witness: a missing base URL is fatal for the index variant, a fully
configured serving environment starts with empty defaults, and a malformed
query-parameter blob is fatal. -/
theorem startup_validation_spec_witness :
    startupIndex ⟨some "* * * * *", none, none, none, none⟩
        (fun _ => .ok []) (fun _ => .ok []) = .exited 1 ∧
    startupServer ⟨some "c", some "b", some "s", some "tok", none, none⟩
        (fun _ => .ok []) (fun _ => .ok []) =
      .started ⟨"c", "b", "s", some "tok", [], []⟩ ∧
    startupIndex ⟨some "c", some "b", none, none, some "nonsense"⟩
        (fun _ => .ok []) (fun _ => .error "Unexpected token") = .exited 1 := by
  have h1 := startup_validation_spec ⟨some "* * * * *", none, none, none, none⟩
    ⟨some "c", some "b", some "s", some "tok", none, none⟩
    (fun _ => .ok []) (fun _ => .ok []) (fun _ => .ok []) (fun _ => .ok [])
  have h2 := startup_validation_spec ⟨some "c", some "b", none, none, some "nonsense"⟩
    ⟨some "c", some "b", some "s", some "tok", none, none⟩
    (fun _ => .ok []) (fun _ => .error "Unexpected token")
    (fun _ => .ok []) (fun _ => .ok [])
  refine ⟨h1.1 (Or.inr rfl), (h1.2.2.2.1 rfl rfl rfl rfl rfl), ?_⟩
  exact h2.2.2.2.2.2.1 "nonsense" "Unexpected token" [] rfl rfl rfl (by decide) rfl rfl

/-- The accumulating loop of buildQueryParams collects exactly the encoded
pairs of the kept parameters, in order. -/
lemma buildQueryParams_foldl (arr : List QueryParam) (acc : List String) :
    List.foldl (fun acc param =>
      match param.value with
      | some v =>
          if truthy param.key then
            acc ++ [encodeURIComponent param.key ++ "=" ++ encodeURIComponent v]
          else acc
      | none => acc) acc arr
    = acc ++ (arr.filter (fun p => truthy p.key && p.value.isSome)).map
        (fun p => encodeURIComponent p.key ++ "=" ++ encodeURIComponent (p.value.getD "")) := by
  induction arr generalizing acc with
  | nil => simp
  | cons p ps ih =>
    cases hv : p.value with
    | none => simp [List.foldl_cons, hv, List.filter_cons, ih]
    | some v =>
      by_cases hk : truthy p.key = true
      · simp [List.foldl_cons, hv, hk, List.filter_cons, ih]
      · simp [List.foldl_cons, hv, hk, List.filter_cons, ih]

/-- The minimal variant's query loop always leaves a trailing ampersand on
a non-empty parameter list. -/
lemma getRandomQueryParamsV0Aux_trailing (rnd : Nat → ℚ) (arr : List RangeParam)
    (k : Nat) (h : arr ≠ []) :
    ∃ s, getRandomQueryParamsV0Aux rnd arr k = s ++ "&" := by
  induction arr generalizing k with
  | nil => exact absurd rfl h
  | cons p ps ih =>
    cases ps with
    | nil =>
      refine ⟨p.key ++ "=" ++ toString (sampleValue (rnd k) p.range), ?_⟩
      show p.key ++ "=" ++ toString (sampleValue (rnd k) p.range) ++ "&"
          ++ getRandomQueryParamsV0Aux rnd [] (k + 1) = _
      rw [show getRandomQueryParamsV0Aux rnd [] (k + 1) = "" from rfl,
        String.append_empty]
    | cons q qs =>
      obtain ⟨s, hrec⟩ := ih (k + 1) (by simp)
      refine ⟨p.key ++ "=" ++ toString (sampleValue (rnd k) p.range) ++ "&" ++ s, ?_⟩
      show p.key ++ "=" ++ toString (sampleValue (rnd k) p.range) ++ "&"
          ++ getRandomQueryParamsV0Aux rnd (q :: qs) (k + 1) = _
      rw [hrec, ← String.append_assoc]

/-- C7 counterexample: in the minimal variant, the parameter with key
"a b" and range 1 is emitted as "a b=1&" — the key is not percent-encoded
and the pair carries a trailing ampersand separator, unlike the
percent-encoded pair required by the claim. -/
theorem v0_query_encoding_counterexample :
    getRandomQueryParamsV0 (fun _ => 0) [⟨"a b", 1⟩] = "a b=1&" ∧
    getRandomQueryParamsV0 (fun _ => 0) [⟨"a b", 1⟩] ≠
      encodeURIComponent "a b" ++ "=" ++ encodeURIComponent (toString (sampleValue 0 1)) := by
  have hs : sampleValue 0 1 = 1 := by simp [sampleValue]
  have h1 : getRandomQueryParamsV0 (fun _ => 0) [⟨"a b", 1⟩] = "a b=1&" := by
    show "a b" ++ "=" ++ toString (sampleValue 0 1) ++ "&"
        ++ getRandomQueryParamsV0Aux (fun _ => 0) [] 1 = "a b=1&"
    rw [hs]
    decide
  refine ⟨h1, ?_⟩
  rw [h1, hs]
  decide

/-- C7 amended: in the index variant's buildQueryParams and the serving
variant's getRandomQueryParams, every emitted pair consists of the
percent-encoded key and percent-encoded value joined by an equals sign,
and the pairs are joined with single ampersands with no trailing
separator; the minimal variant instead emits each pair unencoded and
follows every pair with an ampersand, leaving a trailing one whenever the
parameter list is non-empty. -/
theorem queryParams_encoding_spec (arr : List QueryParam) (rnd : Nat → ℚ)
    (arr2 : List RangeParam) (k : Nat) :
    (buildQueryParams arr = String.intercalate "&"
      ((arr.filter (fun p => truthy p.key && p.value.isSome)).map
        (fun p => encodeURIComponent p.key ++ "=" ++ encodeURIComponent (p.value.getD "")))) ∧
    (∀ s ∈ getRandomQueryParamsAux rnd arr2 k, ∃ key v,
      s = encodeURIComponent key ++ "=" ++ encodeURIComponent v) ∧
    (getRandomQueryParams rnd arr2 =
      String.intercalate "&" (getRandomQueryParamsAux rnd arr2 0)) ∧
    (arr2 ≠ [] → ∃ s, getRandomQueryParamsV0 rnd arr2 = s ++ "&") := by
  refine ⟨?_, ?_, ?_, fun h2 => getRandomQueryParamsV0Aux_trailing rnd arr2 0 h2⟩
  · by_cases h0 : arr.length = 0
    · have : arr = [] := List.length_eq_zero.mp h0
      subst this
      rfl
    · simp only [buildQueryParams, h0, if_false]
      rw [buildQueryParams_foldl arr []]
      rw [List.nil_append]
  · intro s hs
    induction arr2 generalizing k s with
    | nil => simp [getRandomQueryParamsAux] at hs
    | cons p ps ih =>
      by_cases hc : (truthy p.key && p.range != 0) = true
      · rw [show getRandomQueryParamsAux rnd (p :: ps) k =
            (encodeURIComponent p.key ++ "=" ++
              encodeURIComponent (toString (sampleValue (rnd k) p.range)))
              :: getRandomQueryParamsAux rnd ps (k + 1) from by
            simp [getRandomQueryParamsAux, hc]] at hs
        rcases List.mem_cons.mp hs with hcase | hcase
        · exact ⟨p.key, toString (sampleValue (rnd k) p.range), hcase⟩
        · exact ih _ _ hcase
      · rw [show getRandomQueryParamsAux rnd (p :: ps) k =
            getRandomQueryParamsAux rnd ps k from by
            simp [getRandomQueryParamsAux, hc]] at hs
        exact ih _ _ hs
  · by_cases h0 : arr2.length = 0
    · have : arr2 = [] := List.length_eq_zero.mp h0
      subst this
      rfl
    · simp [getRandomQueryParams, h0]

/-- C7 witness: a concrete pair with a space in the key and an ampersand
in the value is emitted percent-encoded with no trailing separator by the
index variant, the serving variant's sole emitted pair is an encoded pair,
and the minimal variant's output on a non-empty list ends with an
ampersand. -/
theorem queryParams_encoding_spec_witness :
    buildQueryParams [⟨"k v", some "a&b"⟩] = "k%20v=a%26b" ∧
    (∃ key v, "x=1" = encodeURIComponent key ++ "=" ++ encodeURIComponent v) ∧
    (∃ s, getRandomQueryParamsV0 (fun _ => 0) [⟨"x", 2⟩] = s ++ "&") := by
  have h := queryParams_encoding_spec [⟨"k v", some "a&b"⟩] (fun _ => 0) [⟨"x", 2⟩] 0
  have hs : sampleValue 0 2 = 1 := by simp [sampleValue]
  have haux : getRandomQueryParamsAux (fun _ => 0) [⟨"x", 2⟩] 0 = ["x=1"] := by
    show (encodeURIComponent "x" ++ "=" ++ encodeURIComponent (toString (sampleValue 0 2)))
        :: getRandomQueryParamsAux (fun _ => 0) [] 1 = ["x=1"]
    rw [hs]
    decide
  refine ⟨?_, ?_, h.2.2.2 (by simp)⟩
  · rw [h.1]
    decide
  · exact h.2.1 "x=1" (by rw [haux]; exact List.mem_singleton.mpr rfl)

end Cronjob
